import Mathlib

/-!
Verification of the rustls TLS 1.3 record-protection layer
(`src/rustls/src/crypto/ring/tls13.rs`) and the buffer-resize retry
discipline of the unbuffered examples, as a shallow embedding.

Bytes are modelled as natural numbers collected in lists.  Code of the
repository that does not live under `src/` (the `Nonce::new`,
`make_tls13_aad` and `into_tls13_unpadded_message` helpers of
`crypto::cipher` / `msgs::message`, the *ring* AEAD and HKDF primitives,
and the unbuffered `encode` operation) is modelled from the
specification's words; each such definition carries a doc comment
starting `Modelled from the spec:`.
-/

namespace Rustls

/-- A byte string; each entry is one byte. -/
abbrev Bytes := List Nat

/-- The three AEAD algorithms offered by the ring provider
(`aead::CHACHA20_POLY1305`, `aead::AES_128_GCM`, `aead::AES_256_GCM`). -/
inductive Alg where
  | chacha20poly1305
  | aes128gcm
  | aes256gcm
deriving DecidableEq, Repr

/-- Fixed per-algorithm key length in bytes (ring's `key_len()`). -/
def Alg.key_len : Alg → Nat
  | .chacha20poly1305 => 32
  | .aes128gcm => 16
  | .aes256gcm => 32

/-- Fixed per-algorithm tag length in bytes (ring's `tag_len()`; 16 for all
three algorithms). -/
def Alg.tag_len : Alg → Nat
  | .chacha20poly1305 => 16
  | .aes128gcm => 16
  | .aes256gcm => 16

/-- The error values reachable from the record-protection layer
(`rustls::Error` restricted to the variants this code produces). -/
inductive Error where
  | EncryptError
  | DecryptError
  | PeerMisbehaved
  | ExceededUsageLimit
deriving DecidableEq, Repr

/-- TLS content-type byte for application data. -/
def ContentType.ApplicationData : Nat := 23

/-- TLS content-type byte for handshake messages. -/
def ContentType.Handshake : Nat := 22

/-- The legacy protocol version written into TLS 1.3 record headers. -/
def ProtocolVersion.TLSv1_2 : Nat := 0x0303

/-- The true protocol version of TLS 1.3. -/
def ProtocolVersion.TLSv1_3 : Nat := 0x0304

/-- Modelled from the spec: the maximum record payload length
(`0 ≤ n ≤ max_record_payload`), the TLS maximum fragment size. -/
def max_record_payload : Nat := 16384

/-- A plaintext record: true content type plus payload
(`BorrowedPlainMessage`). -/
structure BorrowedPlainMessage where
  typ : Nat
  payload : Bytes
deriving DecidableEq, Repr

/-- A protected record: outer content type, legacy version and opaque
ciphertext payload (`OpaqueMessage` / `BorrowedOpaqueMessage`). -/
structure OpaqueMessage where
  typ : Nat
  version : Nat
  payload : Bytes
deriving DecidableEq, Repr

/-- An AEAD key bound to its algorithm (ring's `LessSafeKey`). -/
structure LessSafeKey where
  algorithm : Alg
  key : Bytes
deriving DecidableEq, Repr

/-- Big-endian encoding of a sequence number as eight bytes
(`codec::put_u64`). -/
def be64 (seq : Nat) : Bytes :=
  (List.range 8).map fun i => seq / 2 ^ (8 * (7 - i)) % 256

namespace Nonce

/-- Modelled from the spec: `Nonce::new` (code in `crypto::cipher`, not
under `src/`) — "nonce = base IV XOR (sequence number encoded as a
big-endian 64-bit value in the low bits)": the 64-bit sequence number is
written big-endian into the low-order 8 bytes of a 12-byte block and the
block is XORed with the base IV. -/
def new (iv : Bytes) (seq : Nat) : Bytes :=
  List.zipWith (fun a b => a ^^^ b) iv (List.replicate 4 0 ++ be64 seq)

end Nonce

/-- Modelled from the spec: `make_tls13_aad` (code in `crypto::cipher`,
not under `src/`) — "Associated data is computed from the final
ciphertext length ... TLS 1.3: AAD depends only on total record length":
the 5-byte record header with outer type ApplicationData, legacy version
0x0303 and the total ciphertext length in two big-endian bytes. -/
def make_tls13_aad (len : Nat) : Bytes :=
  [0x17, 0x03, 0x03, len / 256 % 256, len % 256]

namespace aead

/-- A concrete mixing fold used by the modelled AEAD primitive to make it
executable (tampering with any input changes the digest on the witnesses
used here; no cryptographic strength is claimed or needed). -/
def mix (l : Bytes) : Nat :=
  l.foldl (fun a b => (a * 131 + b + 7) % 65521) 17

/-- Keystream application: byte `i` of the input is XORed with a
keystream byte derived from the key digest `k` and the position. XOR
makes this its own inverse. -/
def stream (k : Nat) : Nat → Bytes → Bytes
  | _, [] => []
  | i, b :: bs => (b ^^^ (k + 11 * i) % 256) :: stream k (i + 1) bs

/-- The authentication tag of the modelled AEAD: `tag_len` bytes mixed
from the key, the nonce, the associated data and the ciphertext. -/
def tag (key : LessSafeKey) (nonce aad ct : Bytes) : Bytes :=
  (List.range key.algorithm.tag_len).map
    fun i => (mix (key.key ++ nonce ++ aad ++ ct) + 3 * i) % 256

/-- Modelled from the spec: ring's `seal_in_place_append_tag` — "seal
(plaintext, nonce, aad) -> ciphertext appends an authentication tag". -/
def seal_in_place_append_tag (key : LessSafeKey) (nonce aad p : Bytes) : Bytes :=
  let ct := stream (mix (key.key ++ nonce)) 0 p
  ct ++ tag key nonce aad ct

/-- Modelled from the spec: ring's `open_in_place` — "open(ciphertext,
nonce, aad) -> plaintext | AuthError in place, truncating the buffer to
the verified plaintext length". `none` is the authentication failure. -/
def open_in_place (key : LessSafeKey) (nonce aad c : Bytes) : Option Bytes :=
  if c.length < key.algorithm.tag_len then none
  else
    let ct := c.take (c.length - key.algorithm.tag_len)
    let tg := c.drop (c.length - key.algorithm.tag_len)
    if tg = tag key nonce aad ct then
      some (stream (mix (key.key ++ nonce)) 0 ct)
    else none

end aead

/-- Modelled from the spec: `into_tls13_unpadded_message` (code in
`msgs::message`, not under `src/`) — "application-data records carry
ciphertext whose plaintext suffix is the original content type byte":
the last byte of the recovered inner plaintext is the true content type,
the rest is the payload; an empty inner plaintext is a peer violation. -/
def into_tls13_unpadded_message (msg : OpaqueMessage) : Except Error BorrowedPlainMessage :=
  match msg.payload.getLast? with
  | none => .error .PeerMisbehaved
  | some t => .ok { typ := t, payload := msg.payload.dropLast }

/-- `Tls13MessageEncrypter`: AEAD key plus base IV for the write
direction of one epoch. -/
structure Tls13MessageEncrypter where
  enc_key : LessSafeKey
  iv : Bytes
deriving DecidableEq, Repr

/-- `Tls13MessageDecrypter`: AEAD key plus base IV for the read direction
of one epoch. -/
structure Tls13MessageDecrypter where
  dec_key : LessSafeKey
  iv : Bytes
deriving DecidableEq, Repr

/-- `Tls13MessageEncrypter::encrypted_payload_len`: payload, one inner
content-type byte, then the tag. -/
def Tls13MessageEncrypter.encrypted_payload_len
    (e : Tls13MessageEncrypter) (payload_len : Nat) : Nat :=
  payload_len + 1 + e.enc_key.algorithm.tag_len

/-- `Tls13MessageEncrypter::encrypt`: append the encoded content type to
the payload, seal under the per-sequence nonce and the length-derived
AAD, and frame the result as ApplicationData with legacy version 1.2.
The content type is a `u8`, hence the `% 256`. -/
def Tls13MessageEncrypter.encrypt (e : Tls13MessageEncrypter)
    (msg : BorrowedPlainMessage) (seq : Nat) : Except Error OpaqueMessage :=
  let total_len := e.encrypted_payload_len msg.payload.length
  let payload := msg.payload ++ [msg.typ % 256]
  let nonce := Nonce.new e.iv seq
  let aad := make_tls13_aad total_len
  .ok { typ := ContentType.ApplicationData
        version := ProtocolVersion.TLSv1_2
        payload := aead.seal_in_place_append_tag e.enc_key nonce aad payload }

/-- `Tls13MessageDecrypter::decrypt`: reject payloads shorter than the
tag, open under the per-sequence nonce and the length-derived AAD, and
recover the inner content type from the plaintext suffix. -/
def Tls13MessageDecrypter.decrypt (d : Tls13MessageDecrypter)
    (msg : OpaqueMessage) (seq : Nat) : Except Error BorrowedPlainMessage :=
  if msg.payload.length < d.dec_key.algorithm.tag_len then .error .DecryptError
  else
    let nonce := Nonce.new d.iv seq
    let aad := make_tls13_aad msg.payload.length
    match aead.open_in_place d.dec_key nonce aad msg.payload with
    | none => .error .DecryptError
    | some plain => into_tls13_unpadded_message { msg with payload := plain }

lemma aead.stream_length (k i : Nat) (p : Bytes) :
    (aead.stream k i p).length = p.length := by
  induction p generalizing i with
  | nil => rfl
  | cons b bs ih => simp [aead.stream, ih]

lemma aead.stream_stream (k i : Nat) (p : Bytes) :
    aead.stream k i (aead.stream k i p) = p := by
  induction p generalizing i with
  | nil => rfl
  | cons b bs ih => simp [aead.stream, ih, Nat.xor_cancel_right]

lemma aead.seal_length (key : LessSafeKey) (nonce aad p : Bytes) :
    (aead.seal_in_place_append_tag key nonce aad p).length
      = p.length + key.algorithm.tag_len := by
  simp [aead.seal_in_place_append_tag, aead.tag, aead.stream_length]

/-- Opening a sealed buffer under the same key, nonce and AAD recovers
the plaintext. -/
lemma aead.open_seal (key : LessSafeKey) (nonce aad p : Bytes) :
    aead.open_in_place key nonce aad
      (aead.seal_in_place_append_tag key nonce aad p) = some p := by
  unfold aead.open_in_place
  have hlen := aead.seal_length key nonce aad p
  have hct : (aead.stream (aead.mix (key.key ++ nonce)) 0 p).length = p.length :=
    aead.stream_length _ _ _
  rw [hlen]
  rw [if_neg (by omega)]
  unfold aead.seal_in_place_append_tag
  simp only []
  have htake :
      ((aead.stream (aead.mix (key.key ++ nonce)) 0 p
          ++ aead.tag key nonce aad (aead.stream (aead.mix (key.key ++ nonce)) 0 p)).take
        (p.length + key.algorithm.tag_len - key.algorithm.tag_len))
        = aead.stream (aead.mix (key.key ++ nonce)) 0 p := by
    rw [Nat.add_sub_cancel, ← hct, List.take_left]
  have hdrop :
      ((aead.stream (aead.mix (key.key ++ nonce)) 0 p
          ++ aead.tag key nonce aad (aead.stream (aead.mix (key.key ++ nonce)) 0 p)).drop
        (p.length + key.algorithm.tag_len - key.algorithm.tag_len))
        = aead.tag key nonce aad (aead.stream (aead.mix (key.key ++ nonce)) 0 p) := by
    rw [Nat.add_sub_cancel, ← hct, List.drop_left]
  rw [htake, hdrop, if_pos rfl, aead.stream_stream]

/-- The usage-limit constants shared by all suites
(`CipherSuiteCommon`, restricted to the fields the claims are about). -/
structure CipherSuiteCommon where
  confidentiality_limit : Nat
  integrity_limit : Nat
deriving DecidableEq, Repr

/-- A TLS 1.3 cipher suite: its common limits and its AEAD algorithm
(`Tls13CipherSuite`, restricted to the fields the claims are about). -/
structure Tls13CipherSuite where
  common : CipherSuiteCommon
  aead_alg : Alg
deriving DecidableEq, Repr

/-- `TLS13_CHACHA20_POLY1305_SHA256_INTERNAL`: confidentiality limit
`u64::MAX`, integrity limit `1 << 36`. -/
def TLS13_CHACHA20_POLY1305_SHA256_INTERNAL : Tls13CipherSuite :=
  { common := { confidentiality_limit := 2 ^ 64 - 1
                integrity_limit := 2 ^ 36 }
    aead_alg := .chacha20poly1305 }

/-- `TLS13_AES_256_GCM_SHA384`: confidentiality limit `1 << 23`,
integrity limit `1 << 52`. -/
def TLS13_AES_256_GCM_SHA384 : Tls13CipherSuite :=
  { common := { confidentiality_limit := 2 ^ 23
                integrity_limit := 2 ^ 52 }
    aead_alg := .aes256gcm }

/-- `TLS13_AES_128_GCM_SHA256_INTERNAL`: confidentiality limit `1 << 23`,
integrity limit `1 << 52`. -/
def TLS13_AES_128_GCM_SHA256_INTERNAL : Tls13CipherSuite :=
  { common := { confidentiality_limit := 2 ^ 23
                integrity_limit := 2 ^ 52 }
    aead_alg := .aes128gcm }

/-- Per-epoch usage counters: number of records encrypted so far and
number of failed decryptions so far. -/
structure EpochUsage where
  enc_count : Nat
  failed_decrypts : Nat
deriving DecidableEq, Repr

/-- Modelled from the spec: the record layer "must reject (fatal) any
attempt to protect ... once the configured confidentiality limit (max
encryptions) ... for that epoch is reached".  `protect` encrypts at the
next sequence number unless the suite's confidentiality limit has been
reached. -/
def protect (suite : Tls13CipherSuite) (e : Tls13MessageEncrypter)
    (st : EpochUsage) (msg : BorrowedPlainMessage) :
    Except Error OpaqueMessage × EpochUsage :=
  if suite.common.confidentiality_limit ≤ st.enc_count then
    (.error .ExceededUsageLimit, st)
  else
    (e.encrypt msg st.enc_count, { st with enc_count := st.enc_count + 1 })

/-- Modelled from the spec: the record layer "must reject (fatal) any
attempt to ... unprotect once the configured ... integrity limit (max
failed decryptions) for that epoch is reached".  `unprotect` decrypts
unless the suite's integrity limit has been reached, counting each
failed decryption. -/
def unprotect (suite : Tls13CipherSuite) (d : Tls13MessageDecrypter)
    (st : EpochUsage) (msg : OpaqueMessage) (seq : Nat) :
    Except Error BorrowedPlainMessage × EpochUsage :=
  if suite.common.integrity_limit ≤ st.failed_decrypts then
    (.error .ExceededUsageLimit, st)
  else
    match d.decrypt msg seq with
    | .ok m => (.ok m, st)
    | .error e => (.error e, { st with failed_decrypts := st.failed_decrypts + 1 })

/-- An AEAD key of unchecked length (ring's `UnboundKey`). -/
structure UnboundKey where
  algorithm : Alg
  key : Bytes
deriving DecidableEq, Repr

/-- Modelled from the spec: ring's `UnboundKey::new` — "Key length is
fixed per algorithm and validated at construction": `none` models the
length-validation failure (which `AeadAlgorithm::encrypter` turns into a
panic via `.unwrap()`). -/
def UnboundKey.new (alg : Alg) (key_bytes : Bytes) : Option UnboundKey :=
  if key_bytes.length = alg.key_len then
    some { algorithm := alg, key := key_bytes }
  else none

/-- Ring's `LessSafeKey::new`: wraps a length-checked key. -/
def LessSafeKey.new (u : UnboundKey) : LessSafeKey :=
  { algorithm := u.algorithm, key := u.key }

/-- `AeadAlgorithm::encrypter`: builds the message encrypter; `none`
models the `.unwrap()` panic on a wrong-length key. -/
def AeadAlgorithm.encrypter (alg : Alg) (key : Bytes) (iv : Bytes) :
    Option Tls13MessageEncrypter :=
  (UnboundKey.new alg key).map fun u => { enc_key := LessSafeKey.new u, iv := iv }

/-- `AeadAlgorithm::decrypter`: builds the message decrypter; `none`
models the `.unwrap()` panic on a wrong-length key. -/
def AeadAlgorithm.decrypter (alg : Alg) (key : Bytes) (iv : Bytes) :
    Option Tls13MessageDecrypter :=
  (UnboundKey.new alg key).map fun u => { dec_key := LessSafeKey.new u, iv := iv }

/-- The two hash algorithms used by the ring HKDF providers. -/
inductive HkdfAlg where
  | sha256
  | sha384
deriving DecidableEq, Repr

/-- Hash output length in bytes (`hkdf::Algorithm::len()`). -/
def HkdfAlg.len : HkdfAlg → Nat
  | .sha256 => 32
  | .sha384 => 48

/-- `OkmBlock::MAX_LEN`: the largest supported hash output length. -/
def OkmBlock.MAX_LEN : Nat := 64

/-- Modelled from the spec: ring's HKDF extract
(`hkdf::Salt::new(alg, salt).extract(ikm)`) — "extract(salt, secret) ->
expander".  The pseudo-random key records the extract inputs; every
expansion is a function of this value only, so two equal `Prk`s are
indistinguishable by any later expansion. -/
structure Prk where
  alg : HkdfAlg
  salt : Bytes
  ikm : Bytes
deriving DecidableEq, Repr

/-- `hkdf::Salt::new(alg, salt).extract(ikm)` as a `Prk` value. -/
def extract (alg : HkdfAlg) (salt ikm : Bytes) : Prk :=
  { alg := alg, salt := salt, ikm := ikm }

/-- `RingHkdfExpander`: the algorithm and the pseudo-random key. -/
structure RingHkdfExpander where
  alg : HkdfAlg
  prk : Prk
deriving DecidableEq, Repr

/-- Modelled from the spec: HKDF expansion — "expand(info_labels) ->
fixed block or expand_into(info_labels, output_span)"; "exceeding
[the maximum output length] fails with a length error".  The output is a
deterministic executable function of the `Prk` and the info labels. -/
def Prk.expand (p : Prk) (info : List Bytes) (out_len : Nat) : Option Bytes :=
  if out_len ≤ 255 * p.alg.len then
    some ((List.range out_len).map
      fun i => (aead.mix (p.salt ++ p.ikm ++ info.flatten ++ [i])) % 256)
  else none

/-- `RingHkdfExpander::expand_slice`: expansion into a destination of
length `out_len`; `none` is the `OutputLengthError`. -/
def RingHkdfExpander.expand_slice (e : RingHkdfExpander) (info : List Bytes)
    (out_len : Nat) : Option Bytes :=
  e.prk.expand info out_len

/-- `RingHkdfExpander::expand_block`: expansion to exactly the hash
length (its internal `.unwrap()` cannot fail since `len ≤ 255 * len`). -/
def RingHkdfExpander.expand_block (e : RingHkdfExpander) (info : List Bytes) : Bytes :=
  (e.prk.expand info e.alg.len).getD []

/-- `RingHkdf::extract_from_zero_ikm`: extract from a zero-filled secret
of the hash length, defaulting an absent salt to zeroes of the hash
length. -/
def RingHkdf.extract_from_zero_ikm (alg : HkdfAlg) (salt : Option Bytes) :
    RingHkdfExpander :=
  let zeroes : Bytes := List.replicate OkmBlock.MAX_LEN 0
  let salt := match salt with
    | some s => s
    | none => zeroes.take alg.len
  { alg := alg, prk := extract alg salt (zeroes.take alg.len) }

/-- `RingHkdf::extract_from_secret`: extract from the given secret,
defaulting an absent salt to zeroes of the hash length. -/
def RingHkdf.extract_from_secret (alg : HkdfAlg) (salt : Option Bytes)
    (secret : Bytes) : RingHkdfExpander :=
  let zeroes : Bytes := List.replicate OkmBlock.MAX_LEN 0
  let salt := match salt with
    | some s => s
    | none => zeroes.take alg.len
  { alg := alg, prk := extract alg salt secret }

/-- The recoverable size error of the unbuffered API
(`InsufficientSizeError`): the number of bytes the destination span must
provide for the call to succeed. -/
structure InsufficientSizeError where
  required_size : Nat
deriving DecidableEq, Repr

/-- Modelled from the spec: the unbuffered `encode`/`encrypt` operation —
"any operation writing into caller memory (encode, encrypt) must be able
to fail with the *exact* number of additional bytes required".  The
operation writes a pending record of `record_len` bytes into a
destination span of `span_len` bytes; when the span is too small it
fails carrying exactly the size the span must have. -/
def MustEncodeTlsData.encode (record_len span_len : Nat) :
    Except InsufficientSizeError Nat :=
  if span_len < record_len then .error { required_size := record_len }
  else .ok record_len

/-- `try_or_resize_and_retry` from `unbuffered-client.rs`, specialised to
the encode operation: try once; on a size error resize the outgoing
buffer to `outgoing_used + required_size` and retry the same call on the
new span. -/
def try_or_resize_and_retry (record_len outgoing_len outgoing_used : Nat) :
    Except InsufficientSizeError Nat :=
  match MustEncodeTlsData.encode record_len (outgoing_len - outgoing_used) with
  | .ok written => .ok written
  | .error e =>
      let new_len := outgoing_used + e.required_size
      MustEncodeTlsData.encode record_len (new_len - outgoing_used)

lemma zipWith_xor_zero (l : Bytes) :
    List.zipWith (fun a b => a ^^^ b) l (List.replicate l.length 0) = l := by
  induction l with
  | nil => rfl
  | cons a l ih => simp [List.replicate_succ, ih]

/-- C1: for every epoch (AEAD key, base IV, sequence number) and every
plaintext payload of length at most `max_record_payload`, decrypting the
record produced by encrypting that payload under the same epoch and
sequence number returns exactly the original payload and content type. -/
theorem round_trip (key : LessSafeKey) (iv : Bytes) (m : BorrowedPlainMessage)
    (seq : Nat) (htyp : m.typ < 256) (hlen : m.payload.length ≤ max_record_payload) :
    ∃ om, Tls13MessageEncrypter.encrypt { enc_key := key, iv := iv } m seq = .ok om ∧
      Tls13MessageDecrypter.decrypt { dec_key := key, iv := iv } om seq = .ok m := by
  refine ⟨_, rfl, ?_⟩
  simp only [Tls13MessageEncrypter.encrypt, Tls13MessageEncrypter.encrypted_payload_len]
  set s := aead.seal_in_place_append_tag key (Nonce.new iv seq)
    (make_tls13_aad (m.payload.length + 1 + key.algorithm.tag_len))
    (m.payload ++ [m.typ % 256]) with hs
  have hslen : s.length = m.payload.length + 1 + key.algorithm.tag_len := by
    rw [hs, aead.seal_length]; simp
  unfold Tls13MessageDecrypter.decrypt
  simp only [hslen]
  rw [if_neg (by omega)]
  rw [hs, aead.open_seal]
  unfold into_tls13_unpadded_message
  simp [List.getLast?_concat, List.dropLast_concat, Nat.mod_eq_of_lt htyp]

/-- Concrete epoch key for the round-trip witness. -/
def c1key : LessSafeKey := { algorithm := .chacha20poly1305, key := List.replicate 32 7 }

/-- Concrete base IV for the round-trip witness. -/
def c1iv : Bytes := List.replicate 12 3

/-- Concrete plaintext record for the round-trip witness. -/
def c1m : BorrowedPlainMessage := { typ := 22, payload := [104, 105] }

/-- Witness for C1 at a concrete epoch, payload and sequence number. -/
theorem round_trip_witness :
    ∃ om, Tls13MessageEncrypter.encrypt { enc_key := c1key, iv := c1iv } c1m 5 = .ok om ∧
      Tls13MessageDecrypter.decrypt { dec_key := c1key, iv := c1iv } om 5 = .ok c1m :=
  round_trip c1key c1iv c1m 5 (by decide) (by decide)

/-- C2: the AEAD nonce is the base IV XOR the sequence number encoded
big-endian in the low-order 8 of the 12 nonce bytes (the first 4 IV
bytes pass through unchanged), and encrypt and decrypt at the same
sequence number over the same IV derive the identical nonce. -/
theorem nonce_construction (iv : Bytes) (seq : Nat) (hiv : iv.length = 12) :
    Nonce.new iv seq
      = iv.take 4 ++ List.zipWith (fun a b => a ^^^ b) (iv.drop 4) (be64 seq) ∧
    (∀ (e : Tls13MessageEncrypter) (d : Tls13MessageDecrypter),
      e.iv = d.iv → Nonce.new e.iv seq = Nonce.new d.iv seq) := by
  constructor
  · unfold Nonce.new
    conv_lhs => rw [← List.take_append_drop 4 iv]
    rw [List.zipWith_append _ _ _ _ _ (by simp [hiv])]
    congr 1
    have h4 : (iv.take 4).length = 4 := by simp [hiv]
    calc List.zipWith (fun a b => a ^^^ b) (iv.take 4) (List.replicate 4 0)
        = List.zipWith (fun a b => a ^^^ b) (iv.take 4)
            (List.replicate (iv.take 4).length 0) := by rw [h4]
      _ = iv.take 4 := zipWith_xor_zero _
  · intro e d h
    rw [h]

/-- Witness for C2 at a concrete IV and sequence number. -/
theorem nonce_construction_witness :
    Nonce.new c1iv 9
      = c1iv.take 4 ++ List.zipWith (fun a b => a ^^^ b) (c1iv.drop 4) (be64 9) ∧
    (∀ (e : Tls13MessageEncrypter) (d : Tls13MessageDecrypter),
      e.iv = d.iv → Nonce.new e.iv 9 = Nonce.new d.iv 9) :=
  nonce_construction c1iv 9 (by decide)

/-- C3: every decryption failure is the single generic
`Error.DecryptError`: a payload shorter than the tag and an
authentication failure of the AEAD produce the same error value. -/
theorem decrypt_error_uniform (d : Tls13MessageDecrypter) (msg : OpaqueMessage)
    (seq : Nat) :
    (msg.payload.length < d.dec_key.algorithm.tag_len →
      d.decrypt msg seq = .error .DecryptError) ∧
    (aead.open_in_place d.dec_key (Nonce.new d.iv seq)
        (make_tls13_aad msg.payload.length) msg.payload = none →
      d.decrypt msg seq = .error .DecryptError) := by
  constructor
  · intro h
    unfold Tls13MessageDecrypter.decrypt
    rw [if_pos h]
  · intro h
    unfold Tls13MessageDecrypter.decrypt
    by_cases hlt : msg.payload.length < d.dec_key.algorithm.tag_len
    · rw [if_pos hlt]
    · rw [if_neg hlt]
      simp [h]

/-- Concrete decrypter for the C3 witness. -/
def c3d : Tls13MessageDecrypter :=
  { dec_key := { algorithm := .aes128gcm, key := List.replicate 16 1 }
    iv := List.replicate 12 2 }

/-- A record whose payload is shorter than the AEAD tag. -/
def c3short : OpaqueMessage := { typ := 23, version := 0x0303, payload := [9] }

/-- A record long enough to carry a tag but whose tag does not verify. -/
def c3bad : OpaqueMessage :=
  { typ := 23, version := 0x0303, payload := List.replicate 17 0 }

/-- Witness for C3: both failure shapes at concrete inputs yield the one
generic error. -/
theorem decrypt_error_uniform_witness :
    Tls13MessageDecrypter.decrypt c3d c3short 0 = .error .DecryptError ∧
    Tls13MessageDecrypter.decrypt c3d c3bad 0 = .error .DecryptError :=
  ⟨(decrypt_error_uniform c3d c3short 0).1 (by decide),
   (decrypt_error_uniform c3d c3bad 0).2 (by decide)⟩

/-- The associated data `encrypt` passes to the AEAD (line 192 of
`tls13.rs`): a function of the total ciphertext length only. -/
def Tls13MessageEncrypter.aad_used (e : Tls13MessageEncrypter)
    (m : BorrowedPlainMessage) : Bytes :=
  make_tls13_aad (e.encrypted_payload_len m.payload.length)

/-- The associated data `decrypt` passes to the AEAD (line 221 of
`tls13.rs`): a function of the received ciphertext length only. -/
def Tls13MessageDecrypter.aad_used (m : OpaqueMessage) : Bytes :=
  make_tls13_aad m.payload.length

/-- C4: the associated data passed to the AEAD is a function of only the
total ciphertext record length and the fixed framing constants: records
of equal ciphertext length give identical AAD whatever their content,
and the AAD values are exactly what flows into seal and open. -/
theorem aad_depends_only_on_length (e : Tls13MessageEncrypter)
    (p₁ p₂ : BorrowedPlainMessage) (m₁ m₂ : OpaqueMessage) (seq : Nat)
    (hm : m₁.payload.length = m₂.payload.length)
    (hp : p₁.payload.length = p₂.payload.length) :
    Tls13MessageDecrypter.aad_used m₁ = Tls13MessageDecrypter.aad_used m₂ ∧
    e.aad_used p₁ = e.aad_used p₂ ∧
    e.encrypt p₁ seq = .ok
      { typ := ContentType.ApplicationData
        version := ProtocolVersion.TLSv1_2
        payload := aead.seal_in_place_append_tag e.enc_key (Nonce.new e.iv seq)
          (e.aad_used p₁) (p₁.payload ++ [p₁.typ % 256]) } ∧
    (∀ (d : Tls13MessageDecrypter), d.decrypt m₁ seq =
      if m₁.payload.length < d.dec_key.algorithm.tag_len then .error .DecryptError
      else
        match aead.open_in_place d.dec_key (Nonce.new d.iv seq)
            (Tls13MessageDecrypter.aad_used m₁) m₁.payload with
        | none => .error Error.DecryptError
        | some plain => into_tls13_unpadded_message { m₁ with payload := plain }) := by
  refine ⟨?_, ?_, rfl, fun d => rfl⟩
  · unfold Tls13MessageDecrypter.aad_used
    rw [hm]
  · unfold Tls13MessageEncrypter.aad_used Tls13MessageEncrypter.encrypted_payload_len
    rw [hp]

/-- Two plaintext records of equal payload length but different content. -/
def c4p1 : BorrowedPlainMessage := { typ := 22, payload := [1, 2, 3] }

/-- Second plaintext record for the C4 witness. -/
def c4p2 : BorrowedPlainMessage := { typ := 23, payload := [7, 7, 7] }

/-- Two protected records of equal ciphertext length but different content. -/
def c4m1 : OpaqueMessage := { typ := 23, version := 0x0303, payload := List.replicate 20 4 }

/-- Second protected record for the C4 witness. -/
def c4m2 : OpaqueMessage := { typ := 23, version := 0x0303, payload := List.replicate 20 9 }

/-- Concrete encrypter for the C4 witness. -/
def c4e : Tls13MessageEncrypter :=
  { enc_key := { algorithm := .aes128gcm, key := List.replicate 16 5 }
    iv := List.replicate 12 6 }

/-- Witness for C4 at records of equal length and different content. -/
theorem aad_depends_only_on_length_witness :
    Tls13MessageDecrypter.aad_used c4m1 = Tls13MessageDecrypter.aad_used c4m2 ∧
    c4e.aad_used c4p1 = c4e.aad_used c4p2 ∧
    c4e.encrypt c4p1 3 = .ok
      { typ := ContentType.ApplicationData
        version := ProtocolVersion.TLSv1_2
        payload := aead.seal_in_place_append_tag c4e.enc_key (Nonce.new c4e.iv 3)
          (c4e.aad_used c4p1) (c4p1.payload ++ [c4p1.typ % 256]) } ∧
    (∀ (d : Tls13MessageDecrypter), d.decrypt c4m1 3 =
      if c4m1.payload.length < d.dec_key.algorithm.tag_len then .error .DecryptError
      else
        match aead.open_in_place d.dec_key (Nonce.new d.iv 3)
            (Tls13MessageDecrypter.aad_used c4m1) c4m1.payload with
        | none => .error Error.DecryptError
        | some plain => into_tls13_unpadded_message { c4m1 with payload := plain }) :=
  aad_depends_only_on_length c4e c4p1 c4p2 c4m1 c4m2 3 (by decide) (by decide)

/-- C5: encrypt seals exactly `plaintext ++ [content_type]`, and the
resulting ciphertext payload length is `n + 1 + tag_len`, which is
exactly `encrypted_payload_len n`. -/
theorem inner_framing_and_length (e : Tls13MessageEncrypter)
    (m : BorrowedPlainMessage) (seq : Nat) (htyp : m.typ < 256) :
    ∃ om, e.encrypt m seq = .ok om ∧
      om.payload = aead.seal_in_place_append_tag e.enc_key (Nonce.new e.iv seq)
        (make_tls13_aad (e.encrypted_payload_len m.payload.length))
        (m.payload ++ [m.typ]) ∧
      om.payload.length = e.encrypted_payload_len m.payload.length ∧
      e.encrypted_payload_len m.payload.length
        = m.payload.length + 1 + e.enc_key.algorithm.tag_len := by
  refine ⟨_, rfl, ?_, ?_, rfl⟩
  · simp [Tls13MessageEncrypter.encrypt, Tls13MessageEncrypter.encrypted_payload_len,
      Nat.mod_eq_of_lt htyp]
  · simp only [Tls13MessageEncrypter.encrypt]
    rw [aead.seal_length]
    simp [Tls13MessageEncrypter.encrypted_payload_len]

/-- Witness for C5 at a concrete encrypter and record. -/
theorem inner_framing_and_length_witness :
    ∃ om, c4e.encrypt c4p1 0 = .ok om ∧
      om.payload = aead.seal_in_place_append_tag c4e.enc_key (Nonce.new c4e.iv 0)
        (make_tls13_aad (c4e.encrypted_payload_len c4p1.payload.length))
        (c4p1.payload ++ [c4p1.typ]) ∧
      om.payload.length = c4e.encrypted_payload_len c4p1.payload.length ∧
      c4e.encrypted_payload_len c4p1.payload.length
        = c4p1.payload.length + 1 + c4e.enc_key.algorithm.tag_len :=
  inner_framing_and_length c4e c4p1 0 (by decide)

/-- C6: an insufficient-size failure carries a size that makes the retry
succeed: growing the destination span by the carried size always
suffices, and the example's `try_or_resize_and_retry` loop never fails. -/
theorem resize_retry_succeeds (record_len span_len outgoing_len outgoing_used : Nat) :
    (∀ r, MustEncodeTlsData.encode record_len span_len = .error r →
      MustEncodeTlsData.encode record_len (span_len + r.required_size)
        = .ok record_len) ∧
    try_or_resize_and_retry record_len outgoing_len outgoing_used = .ok record_len := by
  constructor
  · intro r h
    unfold MustEncodeTlsData.encode at h ⊢
    by_cases hc : span_len < record_len
    · rw [if_pos hc] at h
      injection h with h2
      rw [← h2]
      have hr : ({ required_size := record_len } : InsufficientSizeError).required_size
          = record_len := rfl
      rw [hr, if_neg (by omega)]
    · rw [if_neg hc] at h
      exact absurd h (by simp)
  · unfold try_or_resize_and_retry MustEncodeTlsData.encode
    by_cases hc : outgoing_len - outgoing_used < record_len
    · rw [if_pos hc]
      simp only [Nat.add_sub_cancel_left]
      rw [if_neg (lt_irrefl record_len)]
    · rw [if_neg hc]

/-- Witness for C6: a 5-byte record, a 3-byte span, and the retry loop
with a 4-byte buffer of which 2 bytes are already used. -/
theorem resize_retry_succeeds_witness :
    MustEncodeTlsData.encode 5 (3 + ({ required_size := 5 } : InsufficientSizeError).required_size)
      = .ok 5 ∧
    try_or_resize_and_retry 5 4 2 = .ok 5 :=
  ⟨(resize_retry_succeeds 5 3 4 2).1 { required_size := 5 } rfl,
   (resize_retry_succeeds 5 3 4 2).2⟩

/-- C7: extracting from the dummy zero secret is the same operation as
extracting from an explicit all-zero secret of the hash length: the two
expanders are equal, so every later expansion of the one equals that of
the other — no code path distinguishes the dummy secret. -/
theorem zero_ikm_extract_equiv (alg : HkdfAlg) (salt : Option Bytes) :
    RingHkdf.extract_from_zero_ikm alg salt
      = RingHkdf.extract_from_secret alg salt (List.replicate alg.len 0) ∧
    (∀ (info : List Bytes) (out_len : Nat),
      (RingHkdf.extract_from_zero_ikm alg salt).expand_slice info out_len
        = (RingHkdf.extract_from_secret alg salt
            (List.replicate alg.len 0)).expand_slice info out_len) ∧
    (∀ (info : List Bytes),
      (RingHkdf.extract_from_zero_ikm alg salt).expand_block info
        = (RingHkdf.extract_from_secret alg salt
            (List.replicate alg.len 0)).expand_block info) := by
  have hz : (List.replicate OkmBlock.MAX_LEN 0).take alg.len
      = List.replicate alg.len (0 : Nat) := by
    rw [List.take_replicate]
    congr 1
    cases alg <;> decide
  have h1 : RingHkdf.extract_from_zero_ikm alg salt
      = RingHkdf.extract_from_secret alg salt (List.replicate alg.len 0) := by
    simp only [RingHkdf.extract_from_zero_ikm, RingHkdf.extract_from_secret, hz]
  exact ⟨h1, fun info out_len => by rw [h1], fun info => by rw [h1]⟩

/-- C8: the per-suite usage limits are the fixed constants (2^23 and
u64::MAX confidentiality, 2^52 and 2^36 integrity), and a protect or
unprotect attempt at or past the respective limit is rejected as
fatal. -/
theorem usage_limits :
    TLS13_AES_128_GCM_SHA256_INTERNAL.common.confidentiality_limit = 2 ^ 23 ∧
    TLS13_AES_128_GCM_SHA256_INTERNAL.common.integrity_limit = 2 ^ 52 ∧
    TLS13_AES_256_GCM_SHA384.common.confidentiality_limit = 2 ^ 23 ∧
    TLS13_AES_256_GCM_SHA384.common.integrity_limit = 2 ^ 52 ∧
    TLS13_CHACHA20_POLY1305_SHA256_INTERNAL.common.confidentiality_limit = 2 ^ 64 - 1 ∧
    TLS13_CHACHA20_POLY1305_SHA256_INTERNAL.common.integrity_limit = 2 ^ 36 ∧
    (∀ (suite : Tls13CipherSuite) (e : Tls13MessageEncrypter)
        (st : EpochUsage) (m : BorrowedPlainMessage),
      suite.common.confidentiality_limit ≤ st.enc_count →
        protect suite e st m = (.error .ExceededUsageLimit, st)) ∧
    (∀ (suite : Tls13CipherSuite) (d : Tls13MessageDecrypter)
        (st : EpochUsage) (msg : OpaqueMessage) (seq : Nat),
      suite.common.integrity_limit ≤ st.failed_decrypts →
        unprotect suite d st msg seq = (.error .ExceededUsageLimit, st)) := by
  refine ⟨rfl, rfl, rfl, rfl, rfl, rfl, ?_, ?_⟩
  · intro suite e st m h
    unfold protect
    rw [if_pos (by omega)]
  · intro suite d st msg seq h
    unfold unprotect
    rw [if_pos (by omega)]

/-- Epoch usage at the AES-GCM confidentiality limit. -/
def c8conf : EpochUsage := { enc_count := 2 ^ 23, failed_decrypts := 0 }

/-- Epoch usage at the AES-GCM integrity limit. -/
def c8integ : EpochUsage := { enc_count := 0, failed_decrypts := 2 ^ 52 }

/-- Witness for C8: at the limits, protect and unprotect are rejected. -/
theorem usage_limits_witness :
    protect TLS13_AES_128_GCM_SHA256_INTERNAL c4e c8conf c4p1
      = (.error .ExceededUsageLimit, c8conf) ∧
    unprotect TLS13_AES_128_GCM_SHA256_INTERNAL c3d c8integ c4m1 0
      = (.error .ExceededUsageLimit, c8integ) :=
  ⟨usage_limits.2.2.2.2.2.2.1 TLS13_AES_128_GCM_SHA256_INTERNAL c4e c8conf c4p1
      (by decide),
   usage_limits.2.2.2.2.2.2.2 TLS13_AES_128_GCM_SHA256_INTERNAL c3d c8integ c4m1 0
      (by decide)⟩

/-- C9: under the precondition that the key has exactly the algorithm's
fixed key length, building the encrypter and decrypter always succeeds;
a wrong-length key yields `none`, the model of the `.unwrap()` panic,
never a recoverable error value. -/
theorem key_len_validated (alg : Alg) (key iv : Bytes) :
    (key.length = alg.key_len →
      (AeadAlgorithm.encrypter alg key iv).isSome
        ∧ (AeadAlgorithm.decrypter alg key iv).isSome) ∧
    (key.length ≠ alg.key_len →
      AeadAlgorithm.encrypter alg key iv = none
        ∧ AeadAlgorithm.decrypter alg key iv = none) := by
  unfold AeadAlgorithm.encrypter AeadAlgorithm.decrypter UnboundKey.new
  constructor
  · intro h
    rw [if_pos h]
    exact ⟨rfl, rfl⟩
  · intro h
    rw [if_neg h]
    exact ⟨rfl, rfl⟩

/-- Witness for C9: a 16-byte AES-128-GCM key constructs, an empty key
does not. -/
theorem key_len_validated_witness :
    ((AeadAlgorithm.encrypter .aes128gcm (List.replicate 16 0) []).isSome
      ∧ (AeadAlgorithm.decrypter .aes128gcm (List.replicate 16 0) []).isSome) ∧
    (AeadAlgorithm.encrypter .aes128gcm [] [] = none
      ∧ AeadAlgorithm.decrypter .aes128gcm [] [] = none) :=
  ⟨(key_len_validated .aes128gcm (List.replicate 16 0) []).1 (by decide),
   (key_len_validated .aes128gcm [] []).2 (by decide)⟩

/-- C10: every record produced by TLS 1.3 encryption carries outer
content type ApplicationData and legacy protocol version TLSv1_2,
regardless of the inner content type. -/
theorem outer_type_and_version (e : Tls13MessageEncrypter)
    (m : BorrowedPlainMessage) (seq : Nat) :
    ∃ om, e.encrypt m seq = .ok om ∧
      om.typ = ContentType.ApplicationData ∧
      om.version = ProtocolVersion.TLSv1_2 :=
  ⟨_, rfl, rfl, rfl⟩

end Rustls
